import Mathlib

/-!
# Verification of `src/05-objects-tasks.js`

Shallow embedding of the CSS selector builder (`CssSelectorBuilder`), the
`Rectangle` factory and the JSON helpers (`getJSON`, `fromJSON`) of the
repository, together with theorems settling the specification claims.

JavaScript state is modelled by explicit state passing: each mutating method
becomes a function from the receiver state to either a result state
(`Except.ok`) or a thrown error (`Except.error`).  A thrown error carries the
receiver state as it stood at the moment of the `throw`, so that theorems can
speak about partial mutation.  Machine strings are Lean `String`s; the
occurrence counters are `Nat` (JavaScript truthiness of a counter is `≠ 0`).
-/

/-- The six selector fragment kinds, in the canonical order used by
`validOrder` in the source (`element`, `id`, `class`, `attr`, `pseudoClass`,
`pseudoElement`). -/
inductive SelectorType : Type
  | element
  | id
  | «class»
  | attr
  | pseudoClass
  | pseudoElement
deriving DecidableEq, Repr

/-- The per-kind occurrence counters: field `selectorOccurances` of the
`CssSelectorBuilder` constructor (all initialised to `0`). -/
structure SelectorOccurances : Type where
  element : Nat
  id : Nat
  «class» : Nat
  attr : Nat
  pseudoClass : Nat
  pseudoElement : Nat
deriving DecidableEq, Repr

/-- Dynamic field access `this.selectorOccurances[selectorType]`. -/
def occGet (o : SelectorOccurances) : SelectorType → Nat
  | .element => o.element
  | .id => o.id
  | .«class» => o.«class»
  | .attr => o.attr
  | .pseudoClass => o.pseudoClass
  | .pseudoElement => o.pseudoElement

/-- The increment `this.selectorOccurances[selectorType] += 1`. -/
def bumpOcc (o : SelectorOccurances) : SelectorType → SelectorOccurances
  | .element => { o with element := o.element + 1 }
  | .id => { o with id := o.id + 1 }
  | .«class» => { o with «class» := o.«class» + 1 }
  | .attr => { o with attr := o.attr + 1 }
  | .pseudoClass => { o with pseudoClass := o.pseudoClass + 1 }
  | .pseudoElement => { o with pseudoElement := o.pseudoElement + 1 }

/-- The state of a `CssSelectorBuilder` instance: the accumulated rendered
`value`, the combination chain `selectorsToCombine` and the occurrence
counters.  (`validOrder` is the same constant list on every instance; it is
modelled by the global constant `validOrder` below.) -/
structure CssSelectorBuilder : Type where
  value : String
  selectorsToCombine : List String
  selectorOccurances : SelectorOccurances
deriving DecidableEq, Repr

/-- The constant `this.validOrder` array. -/
def validOrder : List SelectorType :=
  [.element, .id, .«class», .attr, .pseudoClass, .pseudoElement]

/-- The state produced by `new CssSelectorBuilder()`. -/
def CssSelectorBuilder.initial : CssSelectorBuilder :=
  { value := ""
    selectorsToCombine := []
    selectorOccurances :=
      { element := 0, id := 0, «class» := 0, attr := 0
        pseudoClass := 0, pseudoElement := 0 } }

/-- The two error messages thrown by the builder, named as in the spec:
`duplicateSelectorPart` is the `'Element, id and pseudo-element should not
occur more then one time inside the selector'` error and `orderViolation` is
the `'Selector parts should be arranged in the following order: ...'` error. -/
inductive SelectorError : Type
  | duplicateSelectorPart
  | orderViolation
deriving DecidableEq, Repr

/-- Result of one builder method call: either the updated receiver, or a
thrown error paired with the receiver state at the moment of the throw. -/
abbrev BuilderResult := Except (SelectorError × CssSelectorBuilder) CssSelectorBuilder

/-- `handleNumberOfOccurances(selectorType)`: `true` iff the guard
`this.selectorOccurances[selectorType]` is truthy, i.e. the method would
throw the duplicate error. -/
def CssSelectorBuilder.handleNumberOfOccurances
    (s : CssSelectorBuilder) (selectorType : SelectorType) : Bool :=
  occGet s.selectorOccurances selectorType != 0

/-- `checkSelectorsOrder(selectorType)`: `true` iff
`this.validOrder.slice(indexOf(selectorType) + 1).filter(type =>
this.selectorOccurances[type])` is non-empty, i.e. the method would throw the
order error. -/
def CssSelectorBuilder.checkSelectorsOrder
    (s : CssSelectorBuilder) (selectorType : SelectorType) : Bool :=
  ((validOrder.drop (validOrder.indexOf selectorType + 1)).filter
      (fun type => occGet s.selectorOccurances type != 0)).length != 0

/-- Method `element(value)`: duplicate check, then order check, then record
the fragment (`value += value`). -/
def CssSelectorBuilder.element (s : CssSelectorBuilder) (value : String) :
    BuilderResult :=
  if s.handleNumberOfOccurances .element then
    .error (.duplicateSelectorPart, s)
  else if s.checkSelectorsOrder .element then
    .error (.orderViolation, s)
  else
    .ok { s with
          selectorOccurances := bumpOcc s.selectorOccurances .element
          value := s.value ++ value }

/-- Method `id(value)`: duplicate check, then order check, then record
the fragment (`value += ` backtick-`#${value}`). -/
def CssSelectorBuilder.id (s : CssSelectorBuilder) (value : String) :
    BuilderResult :=
  if s.handleNumberOfOccurances .id then
    .error (.duplicateSelectorPart, s)
  else if s.checkSelectorsOrder .id then
    .error (.orderViolation, s)
  else
    .ok { s with
          selectorOccurances := bumpOcc s.selectorOccurances .id
          value := s.value ++ "#" ++ value }

/-- Method `class(value)`: order check only, then record `.` + value. -/
def CssSelectorBuilder.«class» (s : CssSelectorBuilder) (value : String) :
    BuilderResult :=
  if s.checkSelectorsOrder .«class» then
    .error (.orderViolation, s)
  else
    .ok { s with
          selectorOccurances := bumpOcc s.selectorOccurances .«class»
          value := s.value ++ "." ++ value }

/-- Method `attr(value)`: order check only, then record `[` + value + `]`. -/
def CssSelectorBuilder.attr (s : CssSelectorBuilder) (value : String) :
    BuilderResult :=
  if s.checkSelectorsOrder .attr then
    .error (.orderViolation, s)
  else
    .ok { s with
          selectorOccurances := bumpOcc s.selectorOccurances .attr
          value := s.value ++ "[" ++ value ++ "]" }

/-- Method `pseudoClass(value)`: order check only, then record `:` + value. -/
def CssSelectorBuilder.pseudoClass (s : CssSelectorBuilder) (value : String) :
    BuilderResult :=
  if s.checkSelectorsOrder .pseudoClass then
    .error (.orderViolation, s)
  else
    .ok { s with
          selectorOccurances := bumpOcc s.selectorOccurances .pseudoClass
          value := s.value ++ ":" ++ value }

/-- Method `pseudoElement(value)`: duplicate check only (the source performs
no order check here), then record `::` + value. -/
def CssSelectorBuilder.pseudoElement (s : CssSelectorBuilder) (value : String) :
    BuilderResult :=
  if s.handleNumberOfOccurances .pseudoElement then
    .error (.duplicateSelectorPart, s)
  else
    .ok { s with
          selectorOccurances := bumpOcc s.selectorOccurances .pseudoElement
          value := s.value ++ "::" ++ value }

/-- Dispatch a fragment-appending method call by kind. -/
def applyStep (s : CssSelectorBuilder) (t : SelectorType) (v : String) :
    BuilderResult :=
  match t with
  | .element => s.element v
  | .id => s.id v
  | .«class» => s.«class» v
  | .attr => s.attr v
  | .pseudoClass => s.pseudoClass v
  | .pseudoElement => s.pseudoElement v

/-- Method `stringify()`, embedded as a state transformer so that its effect
on the receiver is explicit: the body only reads `this`, so the returned
state is the receiver.  The rendered string is the `' '`-join of the truthy
(non-empty) chain entries when `selectorsToCombine` is non-empty, and `value`
otherwise. -/
def CssSelectorBuilder.stringifyCall (s : CssSelectorBuilder) :
    String × CssSelectorBuilder :=
  if s.selectorsToCombine.length != 0 then
    (" ".intercalate (s.selectorsToCombine.filter (fun item => item != "")), s)
  else
    (s.value, s)

/-- The string returned by `stringify()`. -/
def CssSelectorBuilder.stringify (s : CssSelectorBuilder) : String :=
  (s.stringifyCall).1

/-- Method `combine(selector1, combinator, selector2)`: if the receiver
already holds a chain it is returned unchanged; otherwise
`selector1.value`, the combinator string, `selector2.value` and all of
`selector2.selectorsToCombine` are pushed onto the receiver's chain. -/
def CssSelectorBuilder.combine (s : CssSelectorBuilder)
    (selector1 : CssSelectorBuilder) (combinator : String)
    (selector2 : CssSelectorBuilder) : CssSelectorBuilder :=
  if s.selectorsToCombine.length != 0 then
    s
  else
    { s with
      selectorsToCombine :=
        s.selectorsToCombine ++
          [selector1.value, combinator, selector2.value] ++
          selector2.selectorsToCombine }

/-- Run a list of fragment-appending calls in order, on one receiver,
stopping at the first thrown error (the facade chains
`builder.element(..).id(..)...`). -/
def buildList (s : CssSelectorBuilder) :
    List (SelectorType × String) → BuilderResult
  | [] => .ok s
  | (t, v) :: rest =>
    match applyStep s t v with
    | .ok s1 => buildList s1 rest
    | .error e => .error e

/-! ## Spec-side vocabulary

The definitions below follow the wording of the specification, not the
source; they are compared with the source embedding by the theorems. -/

/-- The rank of a kind in the canonical order
Type < Id < Class < Attribute < PseudoClass < PseudoElement. -/
def rank : SelectorType → Nat
  | .element => 0
  | .id => 1
  | .«class» => 2
  | .attr => 3
  | .pseudoClass => 4
  | .pseudoElement => 5

/-- All six kinds, for finite quantification. -/
def allKinds : List SelectorType :=
  [.element, .id, .«class», .attr, .pseudoClass, .pseudoElement]

/-- The kinds capped at one occurrence per selector (Type, Id,
PseudoElement). -/
def restricted : SelectorType → Bool
  | .element => true
  | .id => true
  | .pseudoElement => true
  | _ => false

/-- Some kind of strictly higher rank than `t` has a non-zero recorded
occurrence count (the spec's order-violation condition). -/
def higherNonzero (o : SelectorOccurances) (t : SelectorType) : Bool :=
  allKinds.any (fun k => decide (rank t < rank k) && (occGet o k != 0))

/-- The spec's canonical rendering of one fragment: type name as-is, id as
`#name`, class as `.name`, attribute as `[spec]`, pseudo-class as `:name`,
pseudo-element as `::name`. -/
def canonicalRender : SelectorType × String → String
  | (.element, v) => v
  | (.id, v) => "#" ++ v
  | (.«class», v) => "." ++ v
  | (.attr, v) => "[" ++ v ++ "]"
  | (.pseudoClass, v) => ":" ++ v
  | (.pseudoElement, v) => "::" ++ v

/-- A kind sequence is in ascending (non-decreasing) rank order. -/
def nonDecreasing : List SelectorType → Bool
  | [] => true
  | [_] => true
  | a :: b :: rest => decide (rank a ≤ rank b) && nonDecreasing (b :: rest)

/-- Number of occurrences of kind `t` in a kind sequence. -/
def countKind (ks : List SelectorType) (t : SelectorType) : Nat :=
  (ks.filter (fun k => decide (k = t))).length

/-- No duplicate Type, Id, or PseudoElement in a kind sequence. -/
def noDupRestricted (ks : List SelectorType) : Bool :=
  decide (countKind ks .element ≤ 1) &&
    decide (countKind ks .id ≤ 1) &&
    decide (countKind ks .pseudoElement ≤ 1)

/-- The concatenation of the fragments' canonical renderings in call
order. -/
def concatRenders : List (SelectorType × String) → String
  | [] => ""
  | p :: rest => canonicalRender p ++ concatRenders rest

/-- Whether a method-call result is a thrown `OrderViolation`. -/
def raisesOrderViolation : BuilderResult → Bool
  | .error (.orderViolation, _) => true
  | _ => false

/-- Whether a method-call result is a thrown `DuplicateSelectorPart`. -/
def raisesDuplicate : BuilderResult → Bool
  | .error (.duplicateSelectorPart, _) => true
  | _ => false

/-- The rendered string of a successful build, `none` when an error was
thrown. -/
def renderResult (r : BuilderResult) : Option String :=
  (r.toOption).map CssSelectorBuilder.stringify

/-! ## Rectangle and JSON helpers

`Rectangle` returns an object literal whose `getArea` closes over the
constructor arguments; `getJSON` is `JSON.stringify` (which drops function
properties, leaving the `width` and `height` fields in declaration order);
`fromJSON` is `JSON.parse` followed by `Object.setPrototypeOf`.  The host
builtins `JSON.stringify` / `JSON.parse` are modelled for the flat
objects-of-naturals fragment these helpers are exercised on. -/

/-- The object returned by `Rectangle(width, height)`: two data properties
and a `getArea` method closing over the arguments. -/
structure RectangleObj : Type where
  width : Nat
  height : Nat
  getArea : Unit → Nat

/-- The `Rectangle(width, height)` factory. -/
def Rectangle (width height : Nat) : RectangleObj :=
  { width := width, height := height, getArea := fun _ => width * height }

/-- `JSON.stringify` on a `Rectangle` object: function properties are
skipped, data properties appear in declaration order. -/
def jsonStringifyRect (r : RectangleObj) : String :=
  "\x7b\"width\":" ++ toString r.width ++ ",\"height\":" ++ toString r.height
    ++ "\x7d"

/-- `getJSON(obj)` = `JSON.stringify(obj)`. -/
def getJSON (obj : RectangleObj) : String :=
  jsonStringifyRect obj

def dquoteChar : Char := Char.ofNat 34
def commaChar : Char := Char.ofNat 44
def colonChar : Char := Char.ofNat 58
def lbraceChar : Char := Char.ofNat 123
def rbraceChar : Char := Char.ofNat 125

/-- Digit run to a natural number. -/
def digitsToNat (ds : List Char) : Nat :=
  ds.foldl (fun n c => n * 10 + (c.toNat - 48)) 0

/-- Parse a natural-number literal. -/
def parseNumber (cs : List Char) : Option (Nat × List Char) :=
  let ds := cs.takeWhile Char.isDigit
  if ds.isEmpty then none
  else some (digitsToNat ds, cs.dropWhile Char.isDigit)

/-- Parse a double-quoted key. -/
def parseKey (cs : List Char) : Option (String × List Char) :=
  match cs with
  | [] => none
  | c :: rest =>
    if c = dquoteChar then
      match rest.dropWhile (fun d => d ≠ dquoteChar) with
      | [] => none
      | _ :: rest2 =>
        some (String.mk (rest.takeWhile (fun d => d ≠ dquoteChar)), rest2)
    else none

/-- Parse one `"key":number` pair. -/
def parsePair (cs : List Char) : Option ((String × Nat) × List Char) :=
  match parseKey cs with
  | none => none
  | some (k, rest) =>
    match rest with
    | [] => none
    | c :: rest2 =>
      if c = colonChar then
        match parseNumber rest2 with
        | none => none
        | some (n, rest3) => some ((k, n), rest3)
      else none

/-- Parse a comma-separated list of pairs (fuel-bounded recursion). -/
def parsePairs (fuel : Nat) (cs : List Char) :
    Option (List (String × Nat) × List Char) :=
  match fuel with
  | 0 => none
  | fuel + 1 =>
    match parsePair cs with
    | none => none
    | some (p, rest) =>
      match rest with
      | [] => some ([p], [])
      | c :: rest2 =>
        if c = commaChar then
          match parsePairs fuel rest2 with
          | none => none
          | some (ps, rest3) => some (p :: ps, rest3)
        else some ([p], c :: rest2)

/-- `JSON.parse` on the flat object-of-naturals fragment: the parsed object
as a field list, `none` when the text is not such an object (`JSON.parse`
throws). -/
def jsonParseFlat (s : String) : Option (List (String × Nat)) :=
  match s.toList with
  | [] => none
  | c :: rest =>
    if c = lbraceChar then
      match rest with
      | [] => none
      | d :: rest2 =>
        if d = rbraceChar then
          if rest2.isEmpty then some [] else none
        else
          match parsePairs s.length rest with
          | some (ps, e :: rest3) =>
            if e = rbraceChar ∧ rest3.isEmpty then some ps else none
          | _ => none
    else none

/-- Property lookup on a parsed object. -/
def lookupField (fields : List (String × Nat)) (k : String) : Option Nat :=
  (fields.find? (fun p => decide (p.1 = k))).map Prod.snd

/-- A prototype (method set) for parsed rectangle data: a `getArea` method
reading `this`'s fields. -/
structure RectProto : Type where
  getArea : List (String × Nat) → Nat

/-- `fromJSON(proto, json)`: parse the text and attach the given prototype
to the resulting data (`Object.setPrototypeOf`), without re-validating field
types. -/
def fromJSON (proto : RectProto) (json : String) :
    Option (List (String × Nat) × RectProto) :=
  match jsonParseFlat json with
  | none => none
  | some parsedObject => some (parsedObject, proto)

/-- The shape the caller reattaches for rectangles: `getArea` multiplies the
`width` and `height` fields of `this`. -/
def rectProto : RectProto :=
  { getArea := fun fields =>
      (lookupField fields "width").getD 0 * (lookupField fields "height").getD 0 }

/-! ## Concrete states used by witnesses and counterexamples -/

/-- The state reached by `cssSelectorBuilder.element('a')`. -/
def selA : CssSelectorBuilder :=
  { value := "a"
    selectorsToCombine := []
    selectorOccurances :=
      { element := 1, id := 0, «class» := 0, attr := 0
        pseudoClass := 0, pseudoElement := 0 } }

/-- The state reached by `cssSelectorBuilder.element('b')`. -/
def selB : CssSelectorBuilder :=
  { value := "b"
    selectorsToCombine := []
    selectorOccurances :=
      { element := 1, id := 0, «class» := 0, attr := 0
        pseudoClass := 0, pseudoElement := 0 } }

/-- The state reached by `cssSelectorBuilder.element('c')`. -/
def selC : CssSelectorBuilder :=
  { value := "c"
    selectorsToCombine := []
    selectorOccurances :=
      { element := 1, id := 0, «class» := 0, attr := 0
        pseudoClass := 0, pseudoElement := 0 } }

/-- The state reached by `cssSelectorBuilder.element('a').class('b')`. -/
def selAC : CssSelectorBuilder :=
  { value := "a.b"
    selectorsToCombine := []
    selectorOccurances :=
      { element := 1, id := 0, «class» := 1, attr := 0
        pseudoClass := 0, pseudoElement := 0 } }

/-- The state reached by
`cssSelectorBuilder.combine(element('a'), '+', element('b'))`:
a combined chain rendering to `"a + b"`. -/
def leftChain : CssSelectorBuilder :=
  CssSelectorBuilder.initial.combine selA "+" selB

/-- The state reached by appending `class('x')` to `leftChain`. -/
def selCombinedClass : CssSelectorBuilder :=
  { value := ".x"
    selectorsToCombine := ["a", "+", "b"]
    selectorOccurances :=
      { element := 0, id := 0, «class» := 1, attr := 0
        pseudoClass := 0, pseudoElement := 0 } }

/-- An ascending-rank fragment sequence exercising every kind. -/
def exFrags : List (SelectorType × String) :=
  [(.element, "a"), (.id, "main"), (.«class», "c1"), (.«class», "c2"),
    (.attr, "x=y"), (.pseudoClass, "hover"), (.pseudoElement, "after")]

/-! ## Helper lemmas -/

theorem length_filter_bne_zero {α : Type} (l : List α) (p : α → Bool) :
    ((l.filter p).length != 0) = l.any p := by
  induction l with
  | nil => rfl
  | cons a l ih =>
    cases h : p a <;> simp [List.filter_cons, h, ← ih]

theorem occGet_bumpOcc (o : SelectorOccurances) (t k : SelectorType) :
    occGet (bumpOcc o t) k = if k = t then occGet o k + 1 else occGet o k := by
  cases t <;> cases k <;> simp [bumpOcc, occGet]

theorem occGet_initial (k : SelectorType) :
    occGet CssSelectorBuilder.initial.selectorOccurances k = 0 := by
  cases k <;> rfl

theorem checkSelectorsOrder_eq (s : CssSelectorBuilder) (t : SelectorType) :
    s.checkSelectorsOrder t = higherNonzero s.selectorOccurances t := by
  cases t
  case element =>
    rw [CssSelectorBuilder.checkSelectorsOrder,
      show validOrder.drop (validOrder.indexOf SelectorType.element + 1)
          = [SelectorType.id, .«class», .attr, .pseudoClass, .pseudoElement]
        from rfl,
      length_filter_bne_zero]
    simp [higherNonzero, allKinds, rank]
  case id =>
    rw [CssSelectorBuilder.checkSelectorsOrder,
      show validOrder.drop (validOrder.indexOf SelectorType.id + 1)
          = [SelectorType.«class», .attr, .pseudoClass, .pseudoElement]
        from rfl,
      length_filter_bne_zero]
    simp [higherNonzero, allKinds, rank]
  case «class» =>
    rw [CssSelectorBuilder.checkSelectorsOrder,
      show validOrder.drop (validOrder.indexOf SelectorType.«class» + 1)
          = [SelectorType.attr, .pseudoClass, .pseudoElement]
        from rfl,
      length_filter_bne_zero]
    simp [higherNonzero, allKinds, rank]
  case attr =>
    rw [CssSelectorBuilder.checkSelectorsOrder,
      show validOrder.drop (validOrder.indexOf SelectorType.attr + 1)
          = [SelectorType.pseudoClass, .pseudoElement]
        from rfl,
      length_filter_bne_zero]
    simp [higherNonzero, allKinds, rank]
  case pseudoClass =>
    rw [CssSelectorBuilder.checkSelectorsOrder,
      show validOrder.drop (validOrder.indexOf SelectorType.pseudoClass + 1)
          = [SelectorType.pseudoElement]
        from rfl,
      length_filter_bne_zero]
    simp [higherNonzero, allKinds, rank]
  case pseudoElement =>
    rw [CssSelectorBuilder.checkSelectorsOrder,
      show validOrder.drop (validOrder.indexOf SelectorType.pseudoElement + 1)
          = ([] : List SelectorType)
        from rfl,
      length_filter_bne_zero]
    simp [higherNonzero, allKinds, rank]

theorem higherNonzero_eq_false (o : SelectorOccurances) (t : SelectorType)
    (h : ∀ k, occGet o k ≠ 0 → rank k ≤ rank t) :
    higherNonzero o t = false := by
  rw [higherNonzero, List.any_eq_false]
  intro k _
  by_cases h0 : occGet o k = 0
  · simp [h0]
  · have hn : ¬ rank t < rank k := Nat.not_lt.mpr (h k h0)
    simp [hn]

theorem higherNonzero_pseudoElement (o : SelectorOccurances) :
    higherNonzero o .pseudoElement = false := by
  simp [higherNonzero, allKinds, rank]

theorem applyStep_ok (s : CssSelectorBuilder) (t : SelectorType) (v : String)
    (hord : ∀ k, occGet s.selectorOccurances k ≠ 0 → rank k ≤ rank t)
    (hdup : restricted t = true → occGet s.selectorOccurances t = 0) :
    applyStep s t v =
      .ok { s with
            selectorOccurances := bumpOcc s.selectorOccurances t
            value := s.value ++ canonicalRender (t, v) } := by
  have hord2 : s.checkSelectorsOrder t = false := by
    rw [checkSelectorsOrder_eq]
    exact higherNonzero_eq_false _ _ hord
  cases t
  case element =>
    have h0 : occGet s.selectorOccurances .element = 0 := hdup rfl
    simp [applyStep, CssSelectorBuilder.element,
      CssSelectorBuilder.handleNumberOfOccurances, h0, hord2, canonicalRender]
  case id =>
    have h0 : occGet s.selectorOccurances .id = 0 := hdup rfl
    simp [applyStep, CssSelectorBuilder.id,
      CssSelectorBuilder.handleNumberOfOccurances, h0, hord2, canonicalRender,
      String.append_assoc]
  case «class» =>
    simp [applyStep, CssSelectorBuilder.«class», hord2, canonicalRender,
      String.append_assoc]
  case attr =>
    simp [applyStep, CssSelectorBuilder.attr, hord2, canonicalRender,
      String.append_assoc]
  case pseudoClass =>
    simp [applyStep, CssSelectorBuilder.pseudoClass, hord2, canonicalRender,
      String.append_assoc]
  case pseudoElement =>
    have h0 : occGet s.selectorOccurances .pseudoElement = 0 := hdup rfl
    simp [applyStep, CssSelectorBuilder.pseudoElement,
      CssSelectorBuilder.handleNumberOfOccurances, h0, canonicalRender,
      String.append_assoc]

theorem applyStep_ok_inv (s s1 : CssSelectorBuilder) (t : SelectorType)
    (v : String) (h : applyStep s t v = .ok s1) :
    s1 = { s with
           selectorOccurances := bumpOcc s.selectorOccurances t
           value := s.value ++ canonicalRender (t, v) } := by
  cases t <;>
    simp only [applyStep, CssSelectorBuilder.element, CssSelectorBuilder.id,
      CssSelectorBuilder.«class», CssSelectorBuilder.attr,
      CssSelectorBuilder.pseudoClass, CssSelectorBuilder.pseudoElement] at h <;>
    split_ifs at h <;>
    simp_all [canonicalRender, String.append_assoc]

theorem applyStep_error_state (s s0 : CssSelectorBuilder) (t : SelectorType)
    (v : String) (e : SelectorError)
    (h : applyStep s t v = .error (e, s0)) : s0 = s := by
  cases t <;>
    simp only [applyStep, CssSelectorBuilder.element, CssSelectorBuilder.id,
      CssSelectorBuilder.«class», CssSelectorBuilder.attr,
      CssSelectorBuilder.pseudoClass, CssSelectorBuilder.pseudoElement] at h <;>
    split_ifs at h <;>
    simp_all

theorem nonDecreasing_tail (a : SelectorType) (l : List SelectorType)
    (h : nonDecreasing (a :: l) = true) : nonDecreasing l = true := by
  cases l with
  | nil => rfl
  | cons b l =>
    simp only [nonDecreasing, Bool.and_eq_true] at h
    exact h.2

theorem nonDecreasing_head_le (a : SelectorType) (l : List SelectorType)
    (h : nonDecreasing (a :: l) = true) : ∀ b ∈ l, rank a ≤ rank b := by
  induction l generalizing a with
  | nil => intro b hb; cases hb
  | cons c l ih =>
    intro b hb
    simp only [nonDecreasing, Bool.and_eq_true, decide_eq_true_eq] at h
    rcases List.mem_cons.mp hb with rfl | hb2
    · exact h.1
    · exact le_trans h.1 (ih c h.2 b hb2)

theorem countKind_cons (a t : SelectorType) (ks : List SelectorType) :
    countKind (a :: ks) t = (if a = t then 1 else 0) + countKind ks t := by
  by_cases h : a = t
  · simp [countKind, List.filter_cons, h]
    omega
  · simp [countKind, List.filter_cons, h]

theorem countKind_eq_zero (ks : List SelectorType) (t : SelectorType)
    (h : countKind ks t = 0) : t ∉ ks := by
  induction ks with
  | nil => simp
  | cons a ks ih =>
    rw [countKind_cons] at h
    by_cases hat : a = t
    · simp [hat] at h
    · rw [if_neg hat, Nat.zero_add] at h
      intro hmem
      rcases List.mem_cons.mp hmem with rfl | hmem2
      · exact hat rfl
      · exact ih h hmem2

theorem noDupRestricted_countKind (ks : List SelectorType) (t : SelectorType)
    (hres : restricted t = true) (h : noDupRestricted ks = true) :
    countKind ks t ≤ 1 := by
  simp only [noDupRestricted, Bool.and_eq_true, decide_eq_true_eq] at h
  cases t <;> simp_all [restricted]

theorem noDupRestricted_tail (a : SelectorType) (ks : List SelectorType)
    (h : noDupRestricted (a :: ks) = true) : noDupRestricted ks = true := by
  simp only [noDupRestricted, Bool.and_eq_true, decide_eq_true_eq,
    countKind_cons] at h ⊢
  obtain ⟨⟨h1, h2⟩, h3⟩ := h
  refine ⟨⟨?_, ?_⟩, ?_⟩ <;> split_ifs at h1 h2 h3 <;> omega

theorem buildList_ascending (frags : List (SelectorType × String))
    (s : CssSelectorBuilder)
    (hsorted : nonDecreasing (frags.map Prod.fst) = true)
    (hdupf : noDupRestricted (frags.map Prod.fst) = true)
    (hcounts : ∀ k, occGet s.selectorOccurances k ≠ 0 →
      ∀ p ∈ frags, rank k ≤ rank p.1)
    (hdups : ∀ u, restricted u = true → occGet s.selectorOccurances u ≠ 0 →
      u ∉ frags.map Prod.fst) :
    ∃ s1, buildList s frags = .ok s1 ∧
      s1.value = s.value ++ concatRenders frags ∧
      s1.selectorsToCombine = s.selectorsToCombine := by
  induction frags generalizing s with
  | nil =>
    exact ⟨s, rfl, (String.append_empty s.value).symm, rfl⟩
  | cons p rest ih =>
    obtain ⟨t, v⟩ := p
    have hmaps : (((t, v) :: rest).map Prod.fst) = t :: rest.map Prod.fst := by
      simp
    rw [hmaps] at hsorted hdupf hdups
    have hdupt : restricted t = true → occGet s.selectorOccurances t = 0 := by
      intro hres
      by_contra hne
      exact hdups t hres hne (List.mem_cons_self t _)
    have hordt : ∀ k, occGet s.selectorOccurances k ≠ 0 → rank k ≤ rank t :=
      fun k hk => hcounts k hk (t, v) (List.mem_cons_self _ _)
    have hstep := applyStep_ok s t v hordt hdupt
    rw [buildList, hstep]
    have hcountsNext : ∀ k,
        occGet (bumpOcc s.selectorOccurances t) k ≠ 0 →
        ∀ p2 ∈ rest, rank k ≤ rank p2.1 := by
      intro k hk p2 hp2
      rw [occGet_bumpOcc] at hk
      by_cases hkt : k = t
      · subst hkt
        exact nonDecreasing_head_le k (rest.map Prod.fst) hsorted p2.1
          (List.mem_map.mpr ⟨p2, hp2, rfl⟩)
      · rw [if_neg hkt] at hk
        exact hcounts k hk p2 (List.mem_cons_of_mem _ hp2)
    have hdupsNext : ∀ u, restricted u = true →
        occGet (bumpOcc s.selectorOccurances t) u ≠ 0 →
        u ∉ rest.map Prod.fst := by
      intro u hres hu
      rw [occGet_bumpOcc] at hu
      by_cases hut : u = t
      · subst hut
        have hcount : countKind (u :: rest.map Prod.fst) u ≤ 1 :=
          noDupRestricted_countKind _ _ hres hdupf
        rw [countKind_cons, if_pos rfl] at hcount
        exact countKind_eq_zero _ _ (by omega)
      · rw [if_neg hut] at hu
        exact fun hmem =>
          hdups u hres hu (List.mem_cons_of_mem _ hmem)
    obtain ⟨s1, hb, hv, hc⟩ := ih
        { s with
          selectorOccurances := bumpOcc s.selectorOccurances t
          value := s.value ++ canonicalRender (t, v) }
        (nonDecreasing_tail _ _ hsorted) (noDupRestricted_tail _ _ hdupf)
        hcountsNext hdupsNext
    refine ⟨s1, hb, ?_, hc⟩
    rw [hv]
    simp [concatRenders, String.append_assoc]

theorem stringify_of_chain_empty (s : CssSelectorBuilder)
    (h : s.selectorsToCombine = []) : s.stringify = s.value := by
  simp [CssSelectorBuilder.stringify, CssSelectorBuilder.stringifyCall, h]

theorem stringify_of_chain_ne (s : CssSelectorBuilder)
    (h : s.selectorsToCombine ≠ []) :
    s.stringify =
      " ".intercalate (s.selectorsToCombine.filter (fun item => item != "")) := by
  have hlen : s.selectorsToCombine.length ≠ 0 :=
    fun h0 => h (List.length_eq_zero.mp h0)
  simp [CssSelectorBuilder.stringify, CssSelectorBuilder.stringifyCall, hlen]

theorem combine_initial_chain (s1 s2 : CssSelectorBuilder)
    (combinator : String) :
    (CssSelectorBuilder.initial.combine s1 combinator s2).selectorsToCombine =
      [s1.value, combinator, s2.value] ++ s2.selectorsToCombine := by
  unfold CssSelectorBuilder.combine
  simp [CssSelectorBuilder.initial]

/-! ## Claim theorems -/

/-- C3: for every sequence of appending calls whose kinds are in ascending
(non-decreasing) rank order with no duplicate Type, Id, or PseudoElement,
the render call succeeds and returns exactly the concatenation, in call
order, of each fragment's canonical rendering. -/
theorem claim_C3_ascending_render (frags : List (SelectorType × String))
    (hsorted : nonDecreasing (frags.map Prod.fst) = true)
    (hdupf : noDupRestricted (frags.map Prod.fst) = true) :
    renderResult (buildList CssSelectorBuilder.initial frags) =
      some (concatRenders frags) := by
  obtain ⟨s1, hb, hv, hc⟩ := buildList_ascending frags .initial hsorted hdupf
      (fun k hk => absurd (occGet_initial k) hk)
      (fun u _ hu => absurd (occGet_initial u) hu)
  rw [hb]
  have hc0 : s1.selectorsToCombine = [] := hc
  have hstr : s1.stringify = concatRenders frags := by
    rw [stringify_of_chain_empty s1 hc0, hv,
      show CssSelectorBuilder.initial.value = "" from rfl,
      String.empty_append]
  simp [renderResult, Except.toOption, hstr]

/-- Witness for C3: the ascending sequence `exFrags` renders to
`a#main.c1.c2[x=y]:hover::after`. -/
theorem claim_C3_witness :
    nonDecreasing (exFrags.map Prod.fst) = true ∧
    noDupRestricted (exFrags.map Prod.fst) = true ∧
    renderResult (buildList CssSelectorBuilder.initial exFrags) =
      some (concatRenders exFrags) ∧
    concatRenders exFrags = "a#main.c1.c2[x=y]:hover::after" :=
  ⟨by decide, by decide,
    claim_C3_ascending_render exFrags (by decide) (by decide), by decide⟩

/-- C9: for every string passed as the combinator argument, `combine` never
raises an error (in the embedding it is a total function, as the source
method contains no throw) and stores the given string verbatim as the chain
segment between the two selectors' renderings. -/
theorem claim_C9_combinator_verbatim (s1 s2 : CssSelectorBuilder)
    (combinator : String) :
    (CssSelectorBuilder.initial.combine s1 combinator s2).selectorsToCombine =
      [s1.value, combinator, s2.value] ++ s2.selectorsToCombine :=
  combine_initial_chain s1 s2 combinator

/-- C4: if a selector already holds a combined chain, any subsequent
`combine` call on it returns the receiver unchanged (first combine wins). -/
theorem claim_C4_combine_noop (s s1 s2 : CssSelectorBuilder)
    (combinator : String) (h : s.selectorsToCombine ≠ []) :
    s.combine s1 combinator s2 = s := by
  have hlen : s.selectorsToCombine.length ≠ 0 :=
    fun h0 => h (List.length_eq_zero.mp h0)
  unfold CssSelectorBuilder.combine
  rw [if_pos (bne_iff_ne.mpr hlen)]

/-- Witness for C4: a second combine on an already-combined selector is a
no-op. -/
theorem claim_C4_witness :
    leftChain.selectorsToCombine ≠ [] ∧
    leftChain.combine selC "~" selA = leftChain :=
  ⟨by decide, claim_C4_combine_noop leftChain selC selA "~" (by decide)⟩

/-- C8: `stringify()` does not modify the selector state, and calling it
again on the (unchanged) state returned by the first call yields the same
string. -/
theorem claim_C8_stringify_pure (s : CssSelectorBuilder) :
    (s.stringifyCall).2 = s ∧
    ((s.stringifyCall).2.stringifyCall).1 = (s.stringifyCall).1 := by
  have h2 : (s.stringifyCall).2 = s := by
    unfold CssSelectorBuilder.stringifyCall
    split <;> rfl
  exact ⟨h2, by rw [h2]⟩

/-- C6: when an appending call throws (either error), the receiver state
carried by the thrown error is exactly the state before the call: the checks
run before any mutation. -/
theorem claim_C6_error_no_mutation (s s0 : CssSelectorBuilder)
    (t : SelectorType) (v : String) (e : SelectorError)
    (h : applyStep s t v = .error (e, s0)) : s0 = s :=
  applyStep_error_state s s0 t v e h

/-- Witness for C6: a failing `element` call on `element('a').class('b')`
leaves the state untouched. -/
theorem claim_C6_witness :
    applyStep selAC .element "x" =
      .error (.duplicateSelectorPart, selAC) ∧
    selAC = selAC :=
  ⟨by rfl,
    claim_C6_error_no_mutation selAC selAC .element "x" .duplicateSelectorPart
      (by rfl)⟩

/-- C2 counterexample: on the selector `element('a').class('b')` a further
`element` call has a higher-rank kind (Class) with a non-zero count, yet it
raises `DuplicateSelectorPart`, not `OrderViolation` (the duplicate check
runs first), refuting the claimed if-and-only-if. -/
theorem claim_C2_counterexample :
    buildList CssSelectorBuilder.initial [(.element, "a"), (.«class», "b")] =
      .ok selAC ∧
    higherNonzero selAC.selectorOccurances .element = true ∧
    raisesOrderViolation (applyStep selAC .element "c") = false ∧
    raisesDuplicate (applyStep selAC .element "c") = true :=
  ⟨by rfl, by decide, by rfl, by rfl⟩

/-- C2 (amended): an appending call of kind `t` raises `OrderViolation` iff
some kind of strictly higher rank has a non-zero occurrence count AND the
call's duplicate check does not fire first (for `element`, `id` and
`pseudoElement`, a non-zero own count raises `DuplicateSelectorPart`
instead). -/
theorem claim_C2_orderViolation_iff (s : CssSelectorBuilder)
    (t : SelectorType) (v : String) :
    raisesOrderViolation (applyStep s t v) =
      (higherNonzero s.selectorOccurances t &&
        !(restricted t && (occGet s.selectorOccurances t != 0))) := by
  cases t
  case element =>
    simp only [applyStep, CssSelectorBuilder.element,
      CssSelectorBuilder.handleNumberOfOccurances]
    split_ifs with h1 h2
    · simp [raisesOrderViolation, restricted, h1]
    · rw [checkSelectorsOrder_eq] at h2
      simp only [Bool.not_eq_true] at h1
      simp [raisesOrderViolation, restricted, h1, h2]
    · rw [checkSelectorsOrder_eq] at h2
      simp only [Bool.not_eq_true] at h2
      simp [raisesOrderViolation, restricted, h2]
  case id =>
    simp only [applyStep, CssSelectorBuilder.id,
      CssSelectorBuilder.handleNumberOfOccurances]
    split_ifs with h1 h2
    · simp [raisesOrderViolation, restricted, h1]
    · rw [checkSelectorsOrder_eq] at h2
      simp only [Bool.not_eq_true] at h1
      simp [raisesOrderViolation, restricted, h1, h2]
    · rw [checkSelectorsOrder_eq] at h2
      simp only [Bool.not_eq_true] at h2
      simp [raisesOrderViolation, restricted, h2]
  case «class» =>
    simp only [applyStep, CssSelectorBuilder.«class»]
    split_ifs with h1
    · rw [checkSelectorsOrder_eq] at h1
      simp [raisesOrderViolation, restricted, h1]
    · rw [checkSelectorsOrder_eq] at h1
      simp only [Bool.not_eq_true] at h1
      simp [raisesOrderViolation, restricted, h1]
  case attr =>
    simp only [applyStep, CssSelectorBuilder.attr]
    split_ifs with h1
    · rw [checkSelectorsOrder_eq] at h1
      simp [raisesOrderViolation, restricted, h1]
    · rw [checkSelectorsOrder_eq] at h1
      simp only [Bool.not_eq_true] at h1
      simp [raisesOrderViolation, restricted, h1]
  case pseudoClass =>
    simp only [applyStep, CssSelectorBuilder.pseudoClass]
    split_ifs with h1
    · rw [checkSelectorsOrder_eq] at h1
      simp [raisesOrderViolation, restricted, h1]
    · rw [checkSelectorsOrder_eq] at h1
      simp only [Bool.not_eq_true] at h1
      simp [raisesOrderViolation, restricted, h1]
  case pseudoElement =>
    simp only [applyStep, CssSelectorBuilder.pseudoElement,
      CssSelectorBuilder.handleNumberOfOccurances]
    split_ifs with h1
    · simp [raisesOrderViolation, restricted, h1]
    · simp [raisesOrderViolation, restricted, higherNonzero_pseudoElement]

/-- C1 counterexample: with `left = combine(element('a'), '+', element('b'))`
(which renders to `a + b`) and right `element('c')`, the result of
`combine(left, '>', right)` renders to `> c`, which does not begin with
left's rendered chain: left's chain segments are lost. -/
theorem claim_C1_counterexample :
    CssSelectorBuilder.initial.element "a" = .ok selA ∧
    CssSelectorBuilder.initial.element "b" = .ok selB ∧
    CssSelectorBuilder.initial.element "c" = .ok selC ∧
    leftChain.stringify = "a + b" ∧
    (CssSelectorBuilder.initial.combine leftChain ">" selC).stringify =
      "> c" ∧
    ¬ ((CssSelectorBuilder.initial.combine leftChain ">" selC).stringify).startsWith
        leftChain.stringify :=
  ⟨by rfl, by rfl, by rfl, by rfl, by rfl, by decide⟩

/-- C1 (amended): when left is itself a previously combined chain, its chain
segments are not preserved by `combine`: the result's chain consists of
left's own `value` (empty for a facade-combined selector), the combinator,
right's `value` and right's chain segments, and `stringify()` joins the
non-empty ones of these with single spaces — left's rendered chain does not
appear. -/
theorem claim_C1_left_chain_dropped (left right : CssSelectorBuilder)
    (combinator : String) (_hleft : left.selectorsToCombine ≠ []) :
    (CssSelectorBuilder.initial.combine left combinator right).selectorsToCombine =
      [left.value, combinator, right.value] ++ right.selectorsToCombine ∧
    (CssSelectorBuilder.initial.combine left combinator right).stringify =
      " ".intercalate
        (([left.value, combinator, right.value] ++
            right.selectorsToCombine).filter (fun item => item != "")) := by
  have hchain := combine_initial_chain left right combinator
  refine ⟨hchain, ?_⟩
  have hne : (CssSelectorBuilder.initial.combine left combinator right).selectorsToCombine ≠ [] := by
    rw [hchain]
    simp
  rw [stringify_of_chain_ne _ hne, hchain]

/-- Witness for the amended C1: combining an already-combined left with
`element('c')` yields the chain `['', '>', 'c']`, rendered as `> c`. -/
theorem claim_C1_witness :
    leftChain.selectorsToCombine ≠ [] ∧
    (CssSelectorBuilder.initial.combine leftChain ">" selC).selectorsToCombine =
      ["", ">", "c"] ∧
    (CssSelectorBuilder.initial.combine leftChain ">" selC).stringify =
      "> c" :=
  ⟨by decide,
    ((claim_C1_left_chain_dropped leftChain selC ">" (by decide)).1).trans
      (by rfl),
    ((claim_C1_left_chain_dropped leftChain selC ">" (by decide)).2).trans
      (by rfl)⟩

/-- C5: after a successful `element`, `id` or `pseudoElement` call, invoking
the same method again raises `DuplicateSelectorPart`; `class`, `attr` and
`pseudoClass` never raise a duplicate error. -/
theorem claim_C5_duplicates (s s1 : CssSelectorBuilder) (v w : String) :
    (s.element v = .ok s1 → raisesDuplicate (s1.element w) = true) ∧
    (s.id v = .ok s1 → raisesDuplicate (s1.id w) = true) ∧
    (s.pseudoElement v = .ok s1 →
      raisesDuplicate (s1.pseudoElement w) = true) ∧
    raisesDuplicate (s.«class» v) = false ∧
    raisesDuplicate (s.attr v) = false ∧
    raisesDuplicate (s.pseudoClass v) = false := by
  refine ⟨?_, ?_, ?_, ?_, ?_, ?_⟩
  · intro h
    have hrec := applyStep_ok_inv s s1 .element v h
    rw [hrec]
    simp [CssSelectorBuilder.element,
      CssSelectorBuilder.handleNumberOfOccurances, occGet_bumpOcc,
      raisesDuplicate]
  · intro h
    have hrec := applyStep_ok_inv s s1 .id v h
    rw [hrec]
    simp [CssSelectorBuilder.id,
      CssSelectorBuilder.handleNumberOfOccurances, occGet_bumpOcc,
      raisesDuplicate]
  · intro h
    have hrec := applyStep_ok_inv s s1 .pseudoElement v h
    rw [hrec]
    simp [CssSelectorBuilder.pseudoElement,
      CssSelectorBuilder.handleNumberOfOccurances, occGet_bumpOcc,
      raisesDuplicate]
  · simp only [CssSelectorBuilder.«class»]
    split <;> rfl
  · simp only [CssSelectorBuilder.attr]
    split <;> rfl
  · simp only [CssSelectorBuilder.pseudoClass]
    split <;> rfl

/-- Witness for C5: `element('a')` succeeds from a fresh builder and a second
`element` on the result raises the duplicate error. -/
theorem claim_C5_witness :
    CssSelectorBuilder.initial.element "a" = .ok selA ∧
    raisesDuplicate (selA.element "a") = true :=
  ⟨by rfl,
    (claim_C5_duplicates CssSelectorBuilder.initial selA "a" "a").1 (by rfl)⟩

/-- C10: on a selector holding a non-empty combined chain, a successful
fragment-appending call records the fragment internally (in `value`) but
leaves the chain, and hence the `stringify()` output, unchanged. -/
theorem claim_C10_append_after_combine (s s1 : CssSelectorBuilder)
    (t : SelectorType) (v : String)
    (hchain : s.selectorsToCombine ≠ [])
    (h : applyStep s t v = .ok s1) :
    s1.stringify = s.stringify ∧
    s1.selectorsToCombine = s.selectorsToCombine ∧
    s1.value = s.value ++ canonicalRender (t, v) := by
  have hrec := applyStep_ok_inv s s1 t v h
  have hc : s1.selectorsToCombine = s.selectorsToCombine := by rw [hrec]
  have hc1 : s1.selectorsToCombine ≠ [] := by rw [hc]; exact hchain
  refine ⟨?_, hc, by rw [hrec]⟩
  rw [stringify_of_chain_ne s hchain, stringify_of_chain_ne s1 hc1, hc]

/-- Witness for C10: appending `class('x')` to the combined chain `a + b`
leaves its rendering unchanged. -/
theorem claim_C10_witness :
    leftChain.selectorsToCombine ≠ [] ∧
    (selCombinedClass.stringify = leftChain.stringify ∧
      selCombinedClass.selectorsToCombine = leftChain.selectorsToCombine ∧
      selCombinedClass.value =
        leftChain.value ++ canonicalRender (.«class», "x")) :=
  ⟨by decide,
    claim_C10_append_after_combine leftChain selCombinedClass .«class» "x"
      (by decide) (by rfl)⟩

/-- C7: serializing `Rectangle(10, 20)` with `getJSON` yields
`'{"width":10,"height":20}'`; parsing it back with `fromJSON` (with the
caller-supplied rectangle method set attached) recovers `width = 10`,
`height = 20`, and the reattached `getArea` returns `200`. -/
theorem claim_C7_json_roundtrip :
    getJSON (Rectangle 10 20) = "\x7b\"width\":10,\"height\":20\x7d" ∧
    (fromJSON rectProto (getJSON (Rectangle 10 20))).map
        (fun obj => (lookupField obj.1 "width", lookupField obj.1 "height",
          obj.2.getArea obj.1)) =
      some (some 10, some 20, 200) ∧
    (Rectangle 10 20).getArea () = 200 :=
  ⟨by rfl, by rfl, by rfl⟩
